import Mathlib

/-!
Shallow embedding of the worker-lifecycle core of ComfyUI-Deadline-Distributed
(module `deadline_integration_simple.py`, the integration module loaded by
`__init__.py`; `deadline_integration.py` is an earlier, unimported variant).

The Python class `DeadlineIntegration` keeps three pieces of state:
  - `claimed_workers`: a dict from worker id to a record with keys
    `id`, `ip`, `port`, `job_id`, `last_seen`;
  - `active_jobs`: a dict from job id to a record with keys
    `type`, `count`, `master_ws`, `submitted_at`;
  - `deadline_command`: an optional path to the scheduler executable.

Python dicts are modelled as insertion-ordered association lists whose keys
are unique; `time.time()` readings are modelled as natural numbers (the code
only ever subtracts an earlier reading from a later one and compares the
difference with the timeout, so truncated subtraction agrees with the float
arithmetic of the source on every reachable state).  External effects
(the scheduler subprocess, the shared config file) are passed in as explicit
parameters.
-/

/-- Python `self.worker_heartbeat_timeout = 60  # seconds`. -/
def worker_heartbeat_timeout : Nat := 60

/-- One entry of the `claimed_workers` dict, as built by `register_worker`:
`{"id": worker_id, "ip": worker_ip, "port": worker_port, "job_id": job_id,
"last_seen": time.time()}`. -/
structure WorkerInfo where
  id : String
  ip : String
  port : Nat
  job_id : Option String
  last_seen : Nat
deriving Repr, DecidableEq

/-- The `claimed_workers` dict: an insertion-ordered association list keyed by
`WorkerInfo.id`. -/
abbrev Registry := List WorkerInfo

/-- Result dict of the registry operations: `{"success": ..., "error": ...}`
(the `message` field of successful results is irrelevant to the claims and
omitted). -/
structure OpResult where
  success : Bool
  error : Option String
deriving Repr, DecidableEq

/-- Python dict assignment `claimed_workers[w.id] = w`: replace the (unique)
entry with the same key if present, otherwise append at the end. -/
def dictSetW : Registry → WorkerInfo → Registry
  | [], w => [w]
  | x :: xs, w => if x.id = w.id then w :: xs else x :: dictSetW xs w

/-- Python `claimed_workers[wid]["last_seen"] = now`: update the `last_seen`
field of the (unique) entry with key `wid`, if present. -/
def hbUpdate : Registry → String → Nat → Registry
  | [], _, _ => []
  | x :: xs, wid, t =>
      if x.id = wid then { x with last_seen := t } :: xs else x :: hbUpdate xs wid t

/-- Python `del claimed_workers[wid]`: remove the (unique) entry with key
`wid`. -/
def delW : Registry → String → Registry
  | [], _ => []
  | x :: xs, wid => if x.id = wid then xs else x :: delW xs wid

/-- Python `wid in claimed_workers`. -/
def hasW (ws : Registry) (wid : String) : Bool :=
  ws.any (fun w => w.id = wid)

/-- Python `claimed_workers.get(wid)` (used in proofs to speak about the
record stored for an id). -/
def lookupW (ws : Registry) (wid : String) : Option WorkerInfo :=
  ws.find? (fun w => w.id = wid)

/-- `DeadlineIntegration.worker_heartbeat`: if the id is registered, stamp its
`last_seen` with the current time and return success; otherwise return
`{"success": False, "error": "Worker not found"}`.  Returns the new registry
together with the result dict. -/
def worker_heartbeat (ws : Registry) (wid : String) (now : Nat) :
    Registry × OpResult :=
  if hasW ws wid then (hbUpdate ws wid now, ⟨true, none⟩)
  else (ws, ⟨false, some "Worker not found"⟩)

/-- `DeadlineIntegration.get_active_workers`: walk the dict once, keep every
worker whose `last_seen` is within `worker_heartbeat_timeout` of `now`, and
delete the stale ones from `claimed_workers`.  Both the returned list and the
registry left behind are exactly the live entries, in order. -/
def get_active_workers (ws : Registry) (now : Nat) : Registry :=
  ws.filter (fun w => now - w.last_seen < worker_heartbeat_timeout)

/-- One entry of the `workers` list of the shared ComfyUI-Distributed config
file, as built by `_add_worker_to_distributed_config`. -/
structure CWorker where
  id : String
  host : String
  port : Nat
  cuda_device : Nat
  enabled : Bool
  source : String
  name : String
  args : String
  platform : String
deriving Repr, DecidableEq

/-- The worker entry written by `_add_worker_to_distributed_config`
(`hostname` stands for `socket.gethostname()`). -/
def mkCWorker (wid ip : String) (port : Nat) (hostname : String) : CWorker :=
  { id := wid, host := ip, port := port, cuda_device := 0, enabled := true,
    source := "deadline", name := "Deadline Worker (" ++ hostname ++ ")",
    args := "", platform := "deadline" }

/-- Core of `_add_worker_to_distributed_config`: scan `config["workers"]` for
the first entry with the given id; replace it in place if found, otherwise
append the new entry. -/
def addWorkerToConfig : List CWorker → CWorker → List CWorker
  | [], w => [w]
  | c :: cs, w => if c.id = w.id then w :: cs else c :: addWorkerToConfig cs w

/-- Core of `_remove_worker_from_distributed_config`:
`config["workers"] = [w for w in config["workers"] if w.get("id") != worker_id]`
(the config is saved only when the list shrank, but the resulting `workers`
list is the filtered one either way). -/
def removeWorkerFromConfig (cfg : List CWorker) (wid : String) : List CWorker :=
  cfg.filter (fun w => w.id ≠ wid)

/-- `_add_worker_to_distributed_config` with its enclosing `try/except`:
`syncFail = true` models any exception raised while importing the config
module, loading the config or saving it — the exception is caught, a warning
is logged, and the shared config is left unchanged. -/
def addWorkerToConfigSync (syncFail : Bool) (cfg : List CWorker)
    (wid ip : String) (port : Nat) (hostname : String) : List CWorker :=
  if syncFail then cfg else addWorkerToConfig cfg (mkCWorker wid ip port hostname)

/-- `_remove_worker_from_distributed_config` with its enclosing `try/except`:
on an exception the shared config is left unchanged. -/
def removeWorkerFromConfigSync (syncFail : Bool) (cfg : List CWorker)
    (wid : String) : List CWorker :=
  if syncFail then cfg else removeWorkerFromConfig cfg wid

/-- `DeadlineIntegration.register_worker`: store (or overwrite) the record for
`wid` in `claimed_workers`, mirror it into the shared config (best effort),
and return success.  The snapshot-sync outcome never reaches the result. -/
def register_worker (ws : Registry) (cfg : List CWorker) (wid ip : String)
    (port : Nat) (jid : Option String) (now : Nat) (hostname : String)
    (syncFail : Bool) : Registry × List CWorker × OpResult :=
  (dictSetW ws ⟨wid, ip, port, jid, now⟩,
   addWorkerToConfigSync syncFail cfg wid ip port hostname,
   ⟨true, none⟩)

/-- `DeadlineIntegration.unregister_worker`: if the id is registered, delete
it from `claimed_workers`, mirror the removal into the shared config (best
effort) and return success; otherwise return the "Worker not found" error. -/
def unregister_worker (ws : Registry) (cfg : List CWorker) (wid : String)
    (syncFail : Bool) : Registry × List CWorker × OpResult :=
  if hasW ws wid then
    (delW ws wid, removeWorkerFromConfigSync syncFail cfg wid, ⟨true, none⟩)
  else (ws, cfg, ⟨false, some "Worker not found"⟩)

/-!
Job-id extraction (`DeadlineIntegration._extract_job_id`).

Phase 1: `for line in stdout.split(): if line.startswith("JobID="): return line[6:]`.
Phase 2: `re.search(r'Job ID[:\s=]+([a-f0-9]\x7b24\x7d)', stdout, re.IGNORECASE)`,
returning group 1 on a match.
Otherwise the function returns the empty string.

Strings are handled through their character lists.  Python whitespace is
modelled over the ASCII range (the inputs of interest are ASCII scheduler
output).
-/

/-- ASCII whitespace as recognised by Python `str.split()` and `\s`. -/
def pyIsSpace (c : Char) : Bool :=
  c = ' ' || c = '\t' || c = '\n' || c = '\r' || c = '\x0b' || c = '\x0c'

/-- Helper for `pyTokens`: `acc` is the current token, reversed. -/
def pyTokensAux : List Char → List Char → List (List Char)
  | [], acc => if acc.isEmpty then [] else [acc.reverse]
  | c :: cs, acc =>
      if pyIsSpace c then
        if acc.isEmpty then pyTokensAux cs [] else acc.reverse :: pyTokensAux cs []
      else pyTokensAux cs (c :: acc)

/-- Python `stdout.split()`: split on runs of whitespace, dropping empty
tokens. -/
def pyTokens (cs : List Char) : List (List Char) :=
  pyTokensAux cs []

/-- The characters of the marker `"JobID="`. -/
def jobIdKey : List Char := ['J', 'o', 'b', 'I', 'D', '=']

/-- A character of the regex class `[a-f0-9]` under `re.IGNORECASE`. -/
def isHexCI (c : Char) : Bool :=
  (('0' ≤ c) && (c ≤ '9')) || (('a' ≤ c) && (c ≤ 'f')) || (('A' ≤ c) && (c ≤ 'F'))

/-- A character of the regex class `[:\s=]`. -/
def isSepChar (c : Char) : Bool :=
  c = ':' || c = '=' || pyIsSpace c

/-- Case-insensitive literal match at the head of the input; returns the rest
of the input on success. -/
def matchCI : List Char → List Char → Option (List Char)
  | [], cs => some cs
  | _ :: _, [] => none
  | p :: ps, c :: cs => if c.toLower = p.toLower then matchCI ps cs else none

/-- Attempt to match `Job ID[:\s=]+([a-f0-9]\x7b24\x7d)` (case-insensitive)
at the head of the input, returning the captured 24 hex characters.  The
separator class and the hex class are disjoint, so the greedy `+` never needs
to backtrack: only the maximal separator run can be followed by a hex
character. -/
def matchJobIdAt (cs : List Char) : Option (List Char) :=
  match matchCI ['J', 'o', 'b', ' ', 'I', 'D'] cs with
  | none => none
  | some rest =>
      let seps := rest.takeWhile isSepChar
      let body := rest.dropWhile isSepChar
      if seps.isEmpty then none
      else
        let hex := body.take 24
        if hex.length = 24 && hex.all isHexCI then some hex else none

/-- `re.search`: try the pattern at every start position, left to right. -/
def regexSearch : List Char → Option (List Char)
  | [] => none
  | c :: cs =>
      match matchJobIdAt (c :: cs) with
      | some hex => some hex
      | none => regexSearch cs

/-- `DeadlineIntegration._extract_job_id` over character lists. -/
def extractJobIdChars (cs : List Char) : List Char :=
  match (pyTokens cs).find? (fun t => jobIdKey.isPrefixOf t) with
  | some tok => tok.drop 6
  | none =>
      match regexSearch cs with
      | some hex => hex
      | none => []

/-- `DeadlineIntegration._extract_job_id`: scan the whitespace-separated
tokens of `stdout` for one starting with `"JobID="` and return the remainder
of that token; otherwise fall back to the regex search; otherwise return
`""`. -/
def extract_job_id (stdout : String) : String :=
  String.mk (extractJobIdChars stdout.data)

/-- One entry of the `active_jobs` dict, as built by `claim_workers`. -/
structure JobData where
  type : String
  count : Nat
  master_ws : String
  submitted_at : Nat
deriving Repr, DecidableEq

/-- The `active_jobs` dict: an insertion-ordered association list from job id
to job data. -/
abbrev Jobs := List (String × JobData)

/-- Python dict assignment `active_jobs[jid] = data`. -/
def dictSetJob : Jobs → String → JobData → Jobs
  | [], jid, d => [(jid, d)]
  | p :: ps, jid, d => if p.1 = jid then (jid, d) :: ps else p :: dictSetJob ps jid d

/-- Python `active_jobs.pop(jid, None)`: remove the (unique) entry with key
`jid`, if any. -/
def popJob : Jobs → String → Jobs
  | [], _ => []
  | p :: ps, jid => if p.1 = jid then ps else p :: popJob ps jid

/-- Result dict of `claim_workers`. -/
structure ClaimResult where
  success : Bool
  job_id : Option String
  error : Option String
deriving Repr, DecidableEq

/-- `DeadlineIntegration.claim_workers`, with the outcome of the external
submission command passed in as `returncode`, `stdout` and `stderr`.  When
the scheduler executable was not found the call fails at once; when the
command exits non-zero a submission error (embedding the exit code and
stderr) is returned; when it exits zero but no job id can be extracted an
extraction error is returned and `active_jobs` is untouched; otherwise the
new job is recorded under the extracted id. -/
def claim_workers (cmd : Option String) (jobs : Jobs) (count : Nat)
    (master_ws : String) (returncode : Int) (stdout stderr : String)
    (now : Nat) : Jobs × ClaimResult :=
  match cmd with
  | none => (jobs, ⟨false, none, some "Deadline not available"⟩)
  | some _ =>
      if returncode = 0 then
        let jid := extract_job_id stdout
        if jid ≠ "" then
          (dictSetJob jobs jid ⟨"distributed", count, master_ws, now⟩,
           ⟨true, some jid, none⟩)
        else
          (jobs, ⟨false, none, some "Job submitted but JobID not found in output"⟩)
      else
        (jobs, ⟨false, none,
          some ("Deadline submission failed with code " ++ toString returncode
                ++ ": " ++ stderr)⟩)

/-- Result dict of `release_workers`. -/
structure ReleaseResult where
  success : Bool
  released_jobs : Nat
  error : Option String
deriving Repr, DecidableEq

/-- The `jobs_to_release` selection of `release_workers`: Python
`if job_ids:` treats both `None` and the empty list as absent, in which case
every job whose `type` is `"distributed"` is selected; otherwise the given
ids are filtered down to those present in `active_jobs`. -/
def jobsToRelease (jobs : Jobs) (job_ids : Option (List String)) : List String :=
  match job_ids with
  | some l =>
      if l.isEmpty then (jobs.filter (fun p => p.2.type = "distributed")).map Prod.fst
      else l.filter (fun jid => jobs.any (fun p => p.1 = jid))
  | none => (jobs.filter (fun p => p.2.type = "distributed")).map Prod.fst

/-- The deletion loop of `release_workers`: run `-DeleteJob jid` for each
selected id (`delOk jid` is the event that the command exited 0); on success
remove the job from `active_jobs` and count it, on failure leave it in
place. -/
def releaseLoop (jobs : Jobs) (delOk : String → Bool) : List String → Jobs × Nat
  | [] => (jobs, 0)
  | jid :: rest =>
      if delOk jid then
        let r := releaseLoop (popJob jobs jid) delOk rest
        (r.1, r.2 + 1)
      else releaseLoop jobs delOk rest

/-- `DeadlineIntegration.release_workers`: select the jobs to release, try to
delete each through the scheduler, drop the confirmed ones from
`active_jobs`, and report the number released (always with
`"success": True`). -/
def release_workers (cmd : Option String) (jobs : Jobs)
    (job_ids : Option (List String)) (delOk : String → Bool) :
    Jobs × ReleaseResult :=
  match cmd with
  | none => (jobs, ⟨false, 0, some "Deadline not available"⟩)
  | some _ =>
      let r := releaseLoop jobs delOk (jobsToRelease jobs job_ids)
      (r.1, ⟨true, r.2, none⟩)

/-- Response dict of `get_worker_status` (numeric fields are 0 in the
unavailable case, where the source omits them). -/
structure StatusReport where
  available : Bool
  available_workers : Nat
  claimed_workers : Nat
  total_workers : Nat
  active_jobs : Nat
  error : Option String
deriving Repr, DecidableEq

/-- `DeadlineIntegration.get_worker_status`: when the scheduler command is
configured, run the lazy staleness sweep (`get_active_workers`, which also
rewrites `claimed_workers`) and report 16/16 as the fixed farm size, the
number of live workers and the number of active jobs.  Returns the report
together with the registry left behind by the sweep. -/
def get_worker_status (cmd : Option String) (ws : Registry) (jobs : Jobs)
    (now : Nat) : StatusReport × Registry :=
  match cmd with
  | none => (⟨false, 0, 0, 0, 0, some "Deadline not available"⟩, ws)
  | some _ =>
      let active := get_active_workers ws now
      (⟨true, 16, active.length, 16, jobs.length, none⟩, active)

/-!
Job-file construction (`DeadlineIntegration._create_worker_job_files`).
Only the textual content of the generated job-info and plugin-info files is
modelled, as the list of lines written.
-/

/-- Python `master_ws.split(':')[0]`. -/
def masterHost (master_ws : String) : String :=
  (master_ws.splitOn ":").headD ""

/-- Python `master_ws.split(':')[1] if ':' in master_ws else '8188'`. -/
def masterPort (master_ws : String) : String :=
  if master_ws.contains ':' then (master_ws.splitOn ":").getD 1 "8188"
  else "8188"

/-- The lines written to `job_info.txt` by `_create_worker_job_files`. -/
def create_worker_job_info_lines (job_name : String) (count : Nat)
    (master_ws : String) (priority : Nat) (pool group : String) : List String :=
  [ "Plugin=ComfyUI",
    "Name=" ++ job_name,
    "Comment=ComfyUI Distributed Workers - Interactive Mode",
    "Department=ComfyUI",
    "Priority=" ++ toString priority,
    "Pool=" ++ (if pool ≠ "none" then pool else ""),
    "Group=" ++ (if group ≠ "none" then group else ""),
    "TaskTimeoutMinutes=0",
    "EnableAutoTimeout=false",
    "ConcurrentTasks=1",
    "LimitConcurrentTasksToNumberOfCpus=false",
    "MachineLimit=" ++ toString count,
    "Frames=1-" ++ toString count,
    "ChunkSize=1",
    "EnvironmentKeyValue0=DEADLINE_DIST_MODE=1",
    "EnvironmentKeyValue1=COMFY_MASTER_WS=" ++ master_ws,
    "EnvironmentKeyValue2=COMFY_MASTER_HOST=" ++ masterHost master_ws,
    "EnvironmentKeyValue3=COMFY_MASTER_PORT=" ++ masterPort master_ws,
    "EnvironmentKeyValue4=COMFY_FORCE_NEW_INSTANCE=1",
    "EnvironmentKeyValue5=COMFY_WORKER_MODE=1" ]

/-- The lines written to `plugin_info.txt` by `_create_worker_job_files`
(`workflow_file` stands for the path of the generated placeholder
workflow). -/
def create_worker_plugin_info_lines (workflow_file : String) : List String :=
  [ "DefaultCudaDeviceZero=True",
    "SeedMode=fixed",
    "BatchMode=False",
    "DistributedMode=True",
    "WorkerMode=True",
    "ForceNewInstance=True",
    "UseExistingInstance=False",
    "WorkflowFile=" ++ workflow_file ]

/-- Number of frames declared by a Deadline range line `Frames=a-b`. -/
def frameRangeSize (a b : Nat) : Nat := b + 1 - a

/-!
Theorems for the frozen claims.
-/

/-- C10: whenever the scheduler command is configured, `get_worker_status`
reports `available_workers = 16` and `total_workers = 16` as fixed constants,
independent of the registry contents, the active-jobs map, and the current
time (no scheduler query is involved). -/
theorem C10_status_fixed_farm_size (cmd : String) (ws : Registry) (jobs : Jobs)
    (now : Nat) :
    (get_worker_status (some cmd) ws jobs now).1.available_workers = 16 ∧
    (get_worker_status (some cmd) ws jobs now).1.total_workers = 16 :=
  ⟨rfl, rfl⟩

/-- C8: with the scheduler command configured, `get_worker_status` reports
`claimed_workers` equal to the number of live workers left by the lazy
staleness sweep it performs, and `active_jobs` equal to the size of the
active-jobs map; concretely, after claiming one job and registering three
workers the report shows one active job and three claimed workers, dropping
to two once one worker has been silent past the timeout. -/
theorem C8_status_counts :
    (∀ (cmd : String) (ws : Registry) (jobs : Jobs) (now : Nat),
        (get_worker_status (some cmd) ws jobs now).1.claimed_workers
            = (get_active_workers ws now).length
      ∧ (get_worker_status (some cmd) ws jobs now).1.active_jobs = jobs.length
      ∧ (get_worker_status (some cmd) ws jobs now).2 = get_active_workers ws now)
  ∧ (let cmd := some "deadlinecommand"
     let jobs1 := (claim_workers cmd [] 3 "localhost:8188" 0 "JobID=abc123" "" 0).1
     let ws1 := (register_worker [] [] "w1" "10.0.0.1" 8188 none 0 "h" false).1
     let ws2 := (register_worker ws1 [] "w2" "10.0.0.2" 8189 none 0 "h" false).1
     let ws3 := (register_worker ws2 [] "w3" "10.0.0.3" 8190 none 0 "h" false).1
     let ws4 := (worker_heartbeat ws3 "w2" 30).1
     let ws5 := (worker_heartbeat ws4 "w3" 30).1
     let st1 := get_worker_status cmd ws5 jobs1 30
     let st2 := get_worker_status cmd st1.2 jobs1 70
     st1.1.active_jobs = 1 ∧ st1.1.claimed_workers = 3
       ∧ st2.1.claimed_workers = 2) := by
  refine ⟨fun cmd ws jobs now => ⟨rfl, rfl, rfl⟩, ?_⟩
  decide

/-- C9: for every requested worker count, the generated job-info file
declares a frame range of `count` tasks (`Frames=1-count`, a range of size
`count`), chunk size 1 and machine limit `count`, and carries the
distributed-mode flag, the coordinator host, the coordinator port and the
force-new-instance flag as environment parameters. -/
theorem C9_job_files_one_task_per_machine (job_name : String) (count : Nat)
    (master_ws : String) (priority : Nat) (pool group : String) :
    ("Frames=1-" ++ toString count)
        ∈ create_worker_job_info_lines job_name count master_ws priority pool group
  ∧ frameRangeSize 1 count = count
  ∧ "ChunkSize=1"
        ∈ create_worker_job_info_lines job_name count master_ws priority pool group
  ∧ ("MachineLimit=" ++ toString count)
        ∈ create_worker_job_info_lines job_name count master_ws priority pool group
  ∧ "EnvironmentKeyValue0=DEADLINE_DIST_MODE=1"
        ∈ create_worker_job_info_lines job_name count master_ws priority pool group
  ∧ ("EnvironmentKeyValue2=COMFY_MASTER_HOST=" ++ masterHost master_ws)
        ∈ create_worker_job_info_lines job_name count master_ws priority pool group
  ∧ ("EnvironmentKeyValue3=COMFY_MASTER_PORT=" ++ masterPort master_ws)
        ∈ create_worker_job_info_lines job_name count master_ws priority pool group
  ∧ "EnvironmentKeyValue4=COMFY_FORCE_NEW_INSTANCE=1"
        ∈ create_worker_job_info_lines job_name count master_ws priority pool group := by
  refine ⟨?_, ?_, ?_, ?_, ?_, ?_, ?_, ?_⟩ <;>
    simp [create_worker_job_info_lines, frameRangeSize]

/-- C7: releasing a single job id that is not in the active-jobs map returns
a successful result with `released_jobs = 0` (not an error) and leaves the
active-jobs map unchanged. -/
theorem C7_release_unknown_id (cmd : String) (jobs : Jobs) (jid : String)
    (delOk : String → Bool)
    (h : jobs.any (fun p => p.1 = jid) = false) :
    release_workers (some cmd) jobs (some [jid]) delOk = (jobs, ⟨true, 0, none⟩) := by
  have hsel : jobsToRelease jobs (some [jid]) = [] := by
    simp [jobsToRelease, h]
  simp [release_workers, hsel, releaseLoop]

/-- Concrete run of `C7_release_unknown_id`: one distributed job is active,
an unknown id is released, the map is untouched and the count is 0. -/
theorem C7_release_unknown_id_witness :
    release_workers (some "deadlinecommand")
        [("65f1b2c3d4e5f6a7b8c9d0e1", ⟨"distributed", 2, "localhost:8188", 0⟩)]
        (some ["ffffffffffffffffffffffff"]) (fun _ => true)
      = ([("65f1b2c3d4e5f6a7b8c9d0e1", ⟨"distributed", 2, "localhost:8188", 0⟩)],
         ⟨true, 0, none⟩) :=
  C7_release_unknown_id "deadlinecommand" _ "ffffffffffffffffffffffff" _ (by decide)

/-- C5: a failure while mirroring a registration or unregistration into the
shared distributed-config snapshot (`syncFail = true`, the config left
untouched) is never reflected in the caller-visible result: `register_worker`
still returns success, and `unregister_worker` on a registered id still
returns success and removes the record. -/
theorem C5_snapshot_failure_swallowed (ws : Registry) (cfg : List CWorker)
    (wid ip : String) (port : Nat) (jid : Option String) (now : Nat)
    (hostname : String) (syncFail : Bool) :
    ((register_worker ws cfg wid ip port jid now hostname syncFail).2.2
        = ⟨true, none⟩)
  ∧ ((register_worker ws cfg wid ip port jid now hostname syncFail).1
        = dictSetW ws ⟨wid, ip, port, jid, now⟩)
  ∧ (syncFail = true →
        (register_worker ws cfg wid ip port jid now hostname syncFail).2.1 = cfg)
  ∧ (hasW ws wid = true →
        (unregister_worker ws cfg wid syncFail).2.2 = ⟨true, none⟩
      ∧ (unregister_worker ws cfg wid syncFail).1 = delW ws wid
      ∧ (syncFail = true → (unregister_worker ws cfg wid syncFail).2.1 = cfg)) := by
  refine ⟨rfl, rfl, ?_, ?_⟩
  · intro hf
    simp [register_worker, addWorkerToConfigSync, hf]
  · intro hpresent
    refine ⟨?_, ?_, ?_⟩ <;>
      intros <;>
      simp_all [unregister_worker, removeWorkerFromConfigSync]

/-- Concrete run of `C5_snapshot_failure_swallowed`: with the snapshot sync
failing, registering and then unregistering a worker both report success. -/
theorem C5_snapshot_failure_swallowed_witness :
    ((register_worker [] [] "w1" "10.0.0.1" 8188 none 0 "host" true).2.2
        = ⟨true, none⟩)
  ∧ (hasW [⟨"w1", "10.0.0.1", 8188, none, 0⟩] "w1" = true)
  ∧ ((unregister_worker [⟨"w1", "10.0.0.1", 8188, none, 0⟩] [] "w1" true).2.2
        = ⟨true, none⟩) :=
  ⟨(C5_snapshot_failure_swallowed [] [] "w1" "10.0.0.1" 8188 none 0 "host" true).1,
   by decide,
   ((C5_snapshot_failure_swallowed [⟨"w1", "10.0.0.1", 8188, none, 0⟩] [] "w1"
      "10.0.0.1" 8188 none 0 "host" true).2.2.2 (by decide)).1⟩

/-- Helper: when no whitespace token of `stdout` starts with `JobID=`, the
token scan of `_extract_job_id` finds nothing. -/
theorem find_jobIdKey_eq_none (stdout : String)
    (hTok : (pyTokens stdout.data).all (fun t => !(jobIdKey.isPrefixOf t)) = true) :
    (pyTokens stdout.data).find? (fun t => jobIdKey.isPrefixOf t) = none := by
  rw [List.find?_eq_none]
  intro t ht hc
  have h := (List.all_eq_true.mp hTok) t ht
  have hc2 : jobIdKey.isPrefixOf t = true := hc
  rw [hc2] at h
  exact absurd h (by decide)

/-- Helper: when no whitespace token of `stdout` starts with `JobID=` and the
regex fallback finds nothing, `_extract_job_id` returns the empty string. -/
theorem extract_job_id_of_no_match (stdout : String)
    (hTok : (pyTokens stdout.data).all (fun t => !(jobIdKey.isPrefixOf t)) = true)
    (hRe : regexSearch stdout.data = none) :
    extract_job_id stdout = "" := by
  have hfind := find_jobIdKey_eq_none stdout hTok
  unfold extract_job_id extractJobIdChars
  rw [hfind, hRe]

/-- Helper: the id-extraction error text differs from every submission-failure
error text (the latter always starts with the letter D, the former with J). -/
theorem extraction_error_ne_submission_error (rc : Int) (stderrTxt : String) :
    ("Job submitted but JobID not found in output" : String)
      ≠ "Deadline submission failed with code " ++ toString rc ++ ": " ++ stderrTxt := by
  intro h
  have hd := congrArg String.data h
  rw [String.data_append, String.data_append, String.data_append] at hd
  have h1 : ("Job submitted but JobID not found in output").data
      = 'J' :: ("ob submitted but JobID not found in output").data := rfl
  have h2 : ("Deadline submission failed with code ").data
      = 'D' :: ("eadline submission failed with code ").data := rfl
  rw [h1, h2, List.cons_append, List.cons_append] at hd
  injection hd with hhead _
  exact absurd hhead (by decide)

/-- C2: when the submission command exits 0 but its stdout yields no
extractable job id (no `JobID=` token and no regex-fallback match),
`claim_workers` leaves the active-jobs map unchanged and returns an
unsuccessful result whose error text is distinct from the error returned for
any failed submission (non-zero exit code). -/
theorem C2_id_extraction_error (cmd : String) (jobs : Jobs) (count : Nat)
    (master_ws stderrTxt : String) (now : Nat) (stdout : String)
    (hTok : (pyTokens stdout.data).all (fun t => !(jobIdKey.isPrefixOf t)) = true)
    (hRe : regexSearch stdout.data = none) :
    (claim_workers (some cmd) jobs count master_ws 0 stdout stderrTxt now).1 = jobs
  ∧ (claim_workers (some cmd) jobs count master_ws 0 stdout stderrTxt now).2
      = ⟨false, none, some "Job submitted but JobID not found in output"⟩
  ∧ (∀ (rc : Int), rc ≠ 0 → ∀ (stdout2 stderr2 : String),
      (claim_workers (some cmd) jobs count master_ws 0 stdout stderrTxt now).2.error
        ≠ (claim_workers (some cmd) jobs count master_ws rc stdout2 stderr2 now).2.error) := by
  have hext := extract_job_id_of_no_match stdout hTok hRe
  refine ⟨?_, ?_, ?_⟩
  · simp [claim_workers, hext]
  · simp [claim_workers, hext]
  · intro rc hrc stdout2 stderr2
    simp [claim_workers, hext, hrc]
    exact extraction_error_ne_submission_error rc stderr2

/-- Concrete run of `C2_id_extraction_error`: stdout `"no id here"` yields no
job id; the claim fails with the extraction error and records nothing. -/
theorem C2_id_extraction_error_witness :
    ((pyTokens ("no id here").data).all (fun t => !(jobIdKey.isPrefixOf t)) = true)
  ∧ (regexSearch ("no id here").data = none)
  ∧ (claim_workers (some "deadlinecommand") [] 3 "localhost:8188" 0 "no id here" "" 5).1 = []
  ∧ (claim_workers (some "deadlinecommand") [] 3 "localhost:8188" 0 "no id here" "" 5).2
      = ⟨false, none, some "Job submitted but JobID not found in output"⟩ :=
  ⟨by decide, by decide,
   (C2_id_extraction_error "deadlinecommand" [] 3 "localhost:8188" "" 5 "no id here"
      (by decide) (by decide)).1,
   (C2_id_extraction_error "deadlinecommand" [] 3 "localhost:8188" "" 5 "no id here"
      (by decide) (by decide)).2.1⟩

/-- Helper: replacing (or inserting) the entry for a key that occurs at most
once leaves exactly one entry for that key — the new one. -/
theorem dictSetW_filter_key (w : WorkerInfo) (wid : String) (hw : w.id = wid)
    (ws : Registry) (h : (ws.filter (fun x => x.id = wid)).length ≤ 1) :
    (dictSetW ws w).filter (fun x => x.id = wid) = [w] := by
  induction ws with
  | nil => simp [dictSetW, hw]
  | cons x xs ih =>
    by_cases hx : x.id = w.id
    · have hxw : x.id = wid := hx.trans hw
      rw [List.filter_cons_of_pos (by simp [hxw])] at h
      simp only [List.length_cons] at h
      have hxs : xs.filter (fun y => y.id = wid) = [] :=
        List.length_eq_zero.mp (by omega)
      simp [dictSetW, hx, List.filter_cons, hw, hxs]
    · have hxw : ¬ x.id = wid := fun hc => hx (hc.trans hw.symm)
      rw [List.filter_cons_of_neg (by simp [hxw])] at h
      simp [dictSetW, hx, List.filter_cons, hxw, ih h]

/-- Helper: the config-side analogue of `dictSetW_filter_key` for
`addWorkerToConfig`. -/
theorem addWorkerToConfig_filter_key (w : CWorker) (wid : String)
    (hw : w.id = wid) (cfg : List CWorker)
    (h : (cfg.filter (fun x => x.id = wid)).length ≤ 1) :
    (addWorkerToConfig cfg w).filter (fun x => x.id = wid) = [w] := by
  induction cfg with
  | nil => simp [addWorkerToConfig, hw]
  | cons x xs ih =>
    by_cases hx : x.id = w.id
    · have hxw : x.id = wid := hx.trans hw
      rw [List.filter_cons_of_pos (by simp [hxw])] at h
      simp only [List.length_cons] at h
      have hxs : xs.filter (fun y => y.id = wid) = [] :=
        List.length_eq_zero.mp (by omega)
      simp [addWorkerToConfig, hx, List.filter_cons, hw, hxs]
    · have hxw : ¬ x.id = wid := fun hc => hx (hc.trans hw.symm)
      rw [List.filter_cons_of_neg (by simp [hxw])] at h
      simp [addWorkerToConfig, hx, List.filter_cons, hxw, ih h]

/-- C3: `register_worker` is idempotent with last-write-wins semantics:
starting from any state holding at most one record for `wid` (the dict
invariant; the shared `workers` list may also hold at most one), registering
`wid` twice with different addresses leaves exactly one record for `wid` in
the in-memory registry and exactly one entry for `wid` in the shared config
snapshot, both holding the latest address. -/
theorem C3_register_idempotent (ws : Registry) (cfg : List CWorker)
    (wid ip1 ip2 : String) (port1 port2 : Nat) (jid1 jid2 : Option String)
    (t1 t2 : Nat) (host1 host2 : String)
    (hws : (ws.filter (fun w => w.id = wid)).length ≤ 1)
    (hcfg : (cfg.filter (fun c => c.id = wid)).length ≤ 1) :
    ((register_worker
        (register_worker ws cfg wid ip1 port1 jid1 t1 host1 false).1
        (register_worker ws cfg wid ip1 port1 jid1 t1 host1 false).2.1
        wid ip2 port2 jid2 t2 host2 false).1.filter (fun w => w.id = wid)
      = [⟨wid, ip2, port2, jid2, t2⟩])
  ∧ ((register_worker
        (register_worker ws cfg wid ip1 port1 jid1 t1 host1 false).1
        (register_worker ws cfg wid ip1 port1 jid1 t1 host1 false).2.1
        wid ip2 port2 jid2 t2 host2 false).2.1.filter (fun c => c.id = wid)
      = [mkCWorker wid ip2 port2 host2])
  ∧ ((register_worker
        (register_worker ws cfg wid ip1 port1 jid1 t1 host1 false).1
        (register_worker ws cfg wid ip1 port1 jid1 t1 host1 false).2.1
        wid ip2 port2 jid2 t2 host2 false).1.countP (fun w => w.id = wid) = 1)
  ∧ ((register_worker
        (register_worker ws cfg wid ip1 port1 jid1 t1 host1 false).1
        (register_worker ws cfg wid ip1 port1 jid1 t1 host1 false).2.1
        wid ip2 port2 jid2 t2 host2 false).2.1.countP (fun c => c.id = wid) = 1) := by
  have hws1 : ((register_worker ws cfg wid ip1 port1 jid1 t1 host1 false).1.filter
      (fun w => w.id = wid)) = [⟨wid, ip1, port1, jid1, t1⟩] :=
    dictSetW_filter_key _ wid rfl ws hws
  have hcfg1 : ((register_worker ws cfg wid ip1 port1 jid1 t1 host1 false).2.1.filter
      (fun c => c.id = wid)) = [mkCWorker wid ip1 port1 host1] :=
    addWorkerToConfig_filter_key _ wid rfl cfg hcfg
  have hws2 := dictSetW_filter_key (⟨wid, ip2, port2, jid2, t2⟩ : WorkerInfo) wid rfl
    (register_worker ws cfg wid ip1 port1 jid1 t1 host1 false).1 (by rw [hws1]; simp)
  have hcfg2 := addWorkerToConfig_filter_key (mkCWorker wid ip2 port2 host2) wid rfl
    (register_worker ws cfg wid ip1 port1 jid1 t1 host1 false).2.1 (by rw [hcfg1]; simp)
  refine ⟨hws2, hcfg2, ?_, ?_⟩
  · rw [List.countP_eq_length_filter]
    rw [show ((register_worker
        (register_worker ws cfg wid ip1 port1 jid1 t1 host1 false).1
        (register_worker ws cfg wid ip1 port1 jid1 t1 host1 false).2.1
        wid ip2 port2 jid2 t2 host2 false).1.filter (fun w => w.id = wid))
      = [⟨wid, ip2, port2, jid2, t2⟩] from hws2]
    rfl
  · rw [List.countP_eq_length_filter]
    rw [show ((register_worker
        (register_worker ws cfg wid ip1 port1 jid1 t1 host1 false).1
        (register_worker ws cfg wid ip1 port1 jid1 t1 host1 false).2.1
        wid ip2 port2 jid2 t2 host2 false).2.1.filter (fun c => c.id = wid))
      = [mkCWorker wid ip2 port2 host2] from hcfg2]
    rfl

/-- Concrete run of `C3_register_idempotent`: registering `w1` twice with two
addresses leaves one registry record and one config entry, both with the
second address. -/
theorem C3_register_idempotent_witness :
    ((register_worker
        (register_worker [] [] "w1" "10.0.0.1" 8188 none 0 "hostA" false).1
        (register_worker [] [] "w1" "10.0.0.1" 8188 none 0 "hostA" false).2.1
        "w1" "10.0.0.2" 8189 none 5 "hostB" false).1.filter (fun w => w.id = "w1")
      = [⟨"w1", "10.0.0.2", 8189, none, 5⟩])
  ∧ ((register_worker
        (register_worker [] [] "w1" "10.0.0.1" 8188 none 0 "hostA" false).1
        (register_worker [] [] "w1" "10.0.0.1" 8188 none 0 "hostA" false).2.1
        "w1" "10.0.0.2" 8189 none 5 "hostB" false).2.1.filter (fun c => c.id = "w1")
      = [mkCWorker "w1" "10.0.0.2" 8189 "hostB"]) :=
  ⟨(C3_register_idempotent [] [] "w1" "10.0.0.1" "10.0.0.2" 8188 8189 none none
      0 5 "hostA" "hostB" (by decide) (by decide)).1,
   (C3_register_idempotent [] [] "w1" "10.0.0.1" "10.0.0.2" 8188 8189 none none
      0 5 "hostA" "hostB" (by decide) (by decide)).2.1⟩

/-- Helper: with unique keys, `active_jobs.pop(jid, None)` removes exactly the
entries keyed `jid`. -/
theorem popJob_eq_filter (jid : String) (jobs : Jobs)
    (hnd : (jobs.map Prod.fst).Nodup) :
    popJob jobs jid = jobs.filter (fun p => p.1 ≠ jid) := by
  induction jobs with
  | nil => rfl
  | cons p ps ih =>
    rw [List.map_cons, List.nodup_cons] at hnd
    by_cases h : p.1 = jid
    · simp only [popJob, if_pos h]
      symm
      rw [List.filter_cons_of_neg (by simp [h])]
      rw [List.filter_eq_self]
      intro q hq
      have hmem : q.1 ∈ ps.map Prod.fst := List.mem_map_of_mem _ hq
      have : ¬ q.1 = jid := by
        intro hc
        apply hnd.1
        rw [h, ← hc]
        exact hmem
      simpa using this
    · simp only [popJob, if_neg h]
      rw [List.filter_cons_of_pos (by simp [h]), ih hnd.2]

/-- Helper: the deletion loop of `release_workers` removes from the map
exactly the selected ids whose deletion the scheduler confirmed, and counts
them. -/
theorem releaseLoop_spec (delOk : String → Bool) (l : List String) :
    ∀ (jobs : Jobs), (jobs.map Prod.fst).Nodup →
      releaseLoop jobs delOk l
        = (jobs.filter (fun p => !(decide (p.1 ∈ l) && delOk p.1)),
           (l.filter delOk).length) := by
  induction l with
  | nil =>
    intro jobs _
    simp [releaseLoop]
  | cons j js ih =>
    intro jobs hnd
    have hnd2 : ((popJob jobs j).map Prod.fst).Nodup := by
      rw [popJob_eq_filter j jobs hnd]
      exact hnd.sublist (List.Sublist.map _ (List.filter_sublist _))
    by_cases hj : delOk j = true
    · rw [releaseLoop, if_pos hj, ih (popJob jobs j) hnd2,
        popJob_eq_filter j jobs hnd, List.filter_filter]
      refine Prod.ext ?_ ?_
      · refine List.filter_congr ?_
        intro p _
        by_cases hpj : p.1 = j
        · simp [hpj, hj]
        · simp [hpj]
      · simp [List.filter_cons, hj]
    · rw [releaseLoop, if_neg hj, ih jobs hnd]
      have hjf : delOk j = false := by revert hj; cases delOk j <;> simp
      refine Prod.ext ?_ ?_
      · refine List.filter_congr ?_
        intro p _
        by_cases hpj : p.1 = j
        · simp [hpj, hjf]
        · simp [hpj]
      · simp [List.filter_cons, hjf]

/-- Helper: with unique keys, an id of `jobs` occurs among the keys of the
`f`-filtered jobs exactly when its own entry satisfies `f`. -/
theorem mem_map_fst_filter_iff (jobs : Jobs) (hnd : (jobs.map Prod.fst).Nodup)
    (f : String × JobData → Bool) (p : String × JobData) (hp : p ∈ jobs) :
    p.1 ∈ (jobs.filter f).map Prod.fst ↔ f p = true := by
  constructor
  · intro h
    obtain ⟨q, hq, hqe⟩ := List.mem_map.mp h
    have hq2 := List.mem_filter.mp hq
    have : q = p := List.inj_on_of_nodup_map hnd hq2.1 hp hqe
    rw [← this]
    exact hq2.2
  · intro h
    exact List.mem_map_of_mem _ (List.mem_filter.mpr ⟨hp, h⟩)

/-- C4: `release_workers` with no job ids selects exactly the active jobs of
kind `"distributed"`, removes from the active-jobs map only the ones whose
deletion command the scheduler confirms (`delOk`), leaves failed ones and
jobs of other kinds untouched, and returns the count of confirmed
deletions. -/
theorem C4_release_all_distributed (cmd : String) (jobs : Jobs)
    (delOk : String → Bool) (hnd : (jobs.map Prod.fst).Nodup) :
    jobsToRelease jobs none
        = (jobs.filter (fun p => p.2.type = "distributed")).map Prod.fst
  ∧ (release_workers (some cmd) jobs none delOk).2.success = true
  ∧ (release_workers (some cmd) jobs none delOk).2.released_jobs
      = ((jobs.filter (fun p => p.2.type = "distributed")).filter
          (fun p => delOk p.1)).length
  ∧ (release_workers (some cmd) jobs none delOk).1
      = jobs.filter (fun p => !(decide (p.2.type = "distributed") && delOk p.1))
  ∧ (∀ p ∈ jobs, ¬ p.2.type = "distributed"
        → p ∈ (release_workers (some cmd) jobs none delOk).1)
  ∧ (∀ p ∈ jobs, delOk p.1 = false
        → p ∈ (release_workers (some cmd) jobs none delOk).1) := by
  have hloop := releaseLoop_spec delOk (jobsToRelease jobs none) jobs hnd
  have hsel : jobsToRelease jobs none
      = (jobs.filter (fun p => p.2.type = "distributed")).map Prod.fst := rfl
  have hmain : release_workers (some cmd) jobs none delOk
      = (jobs.filter (fun p => !(decide (p.2.type = "distributed") && delOk p.1)),
         ⟨true, ((jobs.filter (fun p => p.2.type = "distributed")).filter
            (fun p => delOk p.1)).length, none⟩) := by
    have hred : release_workers (some cmd) jobs none delOk
        = ((releaseLoop jobs delOk (jobsToRelease jobs none)).1,
           ⟨true, (releaseLoop jobs delOk (jobsToRelease jobs none)).2, none⟩) := rfl
    rw [hred, hloop]
    refine Prod.ext ?_ ?_
    · dsimp only
      refine List.filter_congr ?_
      intro p hp
      have hbr := mem_map_fst_filter_iff jobs hnd
          (fun q => decide (q.2.type = "distributed")) p hp
      have hdec : decide (p.1 ∈ jobsToRelease jobs none)
          = decide (p.2.type = "distributed") := by
        apply decide_eq_decide.mpr
        rw [hsel]
        exact hbr.trans (by simp)
      rw [hdec]
    · dsimp only
      congr 1
      rw [hsel, List.filter_map]
      simp [Function.comp]
  refine ⟨hsel, by rw [hmain], by rw [hmain], by rw [hmain], ?_, ?_⟩
  · intro p hp hnd2
    rw [hmain]
    exact List.mem_filter.mpr ⟨hp, by simp [hnd2]⟩
  · intro p hp hfail
    rw [hmain]
    exact List.mem_filter.mpr ⟨hp, by simp [hfail]⟩

/-- Concrete run of `C4_release_all_distributed`: of three jobs (two
distributed, one batch), only the distributed job whose deletion succeeds is
removed and counted; the failed distributed job and the batch job stay. -/
theorem C4_release_all_distributed_witness :
    ((release_workers (some "deadlinecommand")
        [("a", ⟨"distributed", 1, "m", 0⟩), ("b", ⟨"batch", 1, "m", 0⟩),
         ("c", ⟨"distributed", 1, "m", 0⟩)] none (fun j => j == "a")).2.released_jobs
      = 1)
  ∧ ((release_workers (some "deadlinecommand")
        [("a", ⟨"distributed", 1, "m", 0⟩), ("b", ⟨"batch", 1, "m", 0⟩),
         ("c", ⟨"distributed", 1, "m", 0⟩)] none (fun j => j == "a")).1
      = [("b", ⟨"batch", 1, "m", 0⟩), ("c", ⟨"distributed", 1, "m", 0⟩)]) := by
  refine ⟨?_, ?_⟩
  · rw [(C4_release_all_distributed "deadlinecommand"
      [("a", ⟨"distributed", 1, "m", 0⟩), ("b", ⟨"batch", 1, "m", 0⟩),
       ("c", ⟨"distributed", 1, "m", 0⟩)] (fun j => j == "a") (by decide)).2.2.1]
    decide
  · rw [(C4_release_all_distributed "deadlinecommand"
      [("a", ⟨"distributed", 1, "m", 0⟩), ("b", ⟨"batch", 1, "m", 0⟩),
       ("c", ⟨"distributed", 1, "m", 0⟩)] (fun j => j == "a") (by decide)).2.2.2.1]
    decide

/-- Registry-facing events of the coordinator: a `register_worker` call, a
`worker_heartbeat` call, and a `get_active_workers` listing (the lazy
staleness sweep), each carrying the `time.time()` reading at which it runs. -/
inductive RegEv where
  | reg (wid ip : String) (port : Nat) (jid : Option String) (t : Nat)
  | hb (wid : String) (t : Nat)
  | sweep (t : Nat)
deriving Repr, DecidableEq

/-- Effect of one event on the `claimed_workers` dict. -/
def stepEv (ws : Registry) : RegEv → Registry
  | RegEv.reg wid ip port jid t => dictSetW ws ⟨wid, ip, port, jid, t⟩
  | RegEv.hb wid t => (worker_heartbeat ws wid t).1
  | RegEv.sweep t => get_active_workers ws t

/-- Run a sequence of events against the registry. -/
def runEvs : Registry → List RegEv → Registry
  | ws, [] => ws
  | ws, e :: es => runEvs (stepEv ws e) es

/-- The events of a trace are spaced under the timeout for worker `wid`:
given the last `last_seen` stamp `tlast` recorded for `wid`, every heartbeat
of `wid` and every listing happens strictly within `worker_heartbeat_timeout`
of it (events of other workers are unconstrained). -/
def spacedOk (wid : String) : Nat → List RegEv → Bool
  | _, [] => true
  | tlast, RegEv.reg i _ _ _ t :: es =>
      if i = wid then spacedOk wid t es else spacedOk wid tlast es
  | tlast, RegEv.hb i t :: es =>
      if i = wid then
        decide (t - tlast < worker_heartbeat_timeout) && spacedOk wid t es
      else spacedOk wid tlast es
  | tlast, RegEv.sweep t :: es =>
      decide (t - tlast < worker_heartbeat_timeout) && spacedOk wid tlast es

/-- Every listing of the trace includes worker `wid` in its output. -/
def sweepsInclude (wid : String) : Registry → List RegEv → Bool
  | _, [] => true
  | ws, RegEv.sweep t :: es =>
      (get_active_workers ws t).any (fun w => w.id = wid)
        && sweepsInclude wid (get_active_workers ws t) es
  | ws, e :: es => sweepsInclude wid (stepEv ws e) es

/-- Registry invariant for a tracked worker: exactly one record is keyed
`wid` and its `last_seen` stamp is `tlast`. -/
def regInv (wid : String) (tlast : Nat) (ws : Registry) : Prop :=
  ∃ w, ws.filter (fun x => x.id = wid) = [w] ∧ w.last_seen = tlast

/-- Helper: inserting a record for a different key does not change the
entries for `wid`. -/
theorem dictSetW_filter_ne (w : WorkerInfo) (wid : String) (hw : ¬ w.id = wid)
    (ws : Registry) :
    (dictSetW ws w).filter (fun x => x.id = wid) = ws.filter (fun x => x.id = wid) := by
  induction ws with
  | nil => simp [dictSetW, hw]
  | cons x xs ih =>
    by_cases hx : x.id = w.id
    · have hxw : ¬ x.id = wid := fun hc => hw ((hx.symm.trans hc))
      simp [dictSetW, hx, List.filter_cons, hxw, hw]
    · simp [dictSetW, hx, List.filter_cons, ih]

/-- Helper: a heartbeat of `wid` restamps the unique record for `wid`. -/
theorem hbUpdate_filter_eq (wid : String) (t : Nat) (ws : Registry)
    (w : WorkerInfo) (hw : ws.filter (fun x => x.id = wid) = [w]) :
    (hbUpdate ws wid t).filter (fun x => x.id = wid) = [{ w with last_seen := t }] := by
  induction ws with
  | nil => simp at hw
  | cons x xs ih =>
    by_cases hx : x.id = wid
    · rw [List.filter_cons_of_pos (by simp [hx])] at hw
      have hxw : x = w := by
        have := congrArg (fun l => l.headD x) hw
        simpa using this
      have hxs : xs.filter (fun y => y.id = wid) = [] := by
        have := congrArg List.tail hw
        simpa using this
      subst hxw
      simp [hbUpdate, hx, List.filter_cons, hxs]
    · rw [List.filter_cons_of_neg (by simp [hx])] at hw
      simp [hbUpdate, hx, List.filter_cons, ih hw]

/-- Helper: a heartbeat of another worker does not change the entries for
`wid`. -/
theorem hbUpdate_filter_ne (i wid : String) (hi : ¬ i = wid) (t : Nat)
    (ws : Registry) :
    (hbUpdate ws i t).filter (fun x => x.id = wid) = ws.filter (fun x => x.id = wid) := by
  induction ws with
  | nil => simp [hbUpdate]
  | cons x xs ih =>
    by_cases hx : x.id = i
    · have hxw : ¬ x.id = wid := fun hc => hi (hx.symm.trans hc)
      simp [hbUpdate, hx, List.filter_cons, hxw, hi]
    · simp [hbUpdate, hx, List.filter_cons, ih]

/-- Helper: the staleness sweep commutes with restricting to the entries of
one worker id. -/
theorem get_active_filter_comm (ws : Registry) (t : Nat) (wid : String) :
    (get_active_workers ws t).filter (fun x => x.id = wid)
      = (ws.filter (fun x => x.id = wid)).filter
          (fun w => t - w.last_seen < worker_heartbeat_timeout) := by
  unfold get_active_workers
  rw [List.filter_filter, List.filter_filter]
  exact List.filter_congr (fun x _ => Bool.and_comm _ _)

/-- Helper: membership of the tracked worker in the registry, from the
invariant. -/
theorem regInv_mem {wid : String} {tlast : Nat} {ws : Registry}
    (h : regInv wid tlast ws) :
    ∃ w ∈ ws, w.id = wid := by
  obtain ⟨w, hw, _⟩ := h
  have hmem : w ∈ ws.filter (fun x => x.id = wid) := by
    rw [hw]; exact List.mem_singleton.mpr rfl
  have := List.mem_filter.mp hmem
  exact ⟨w, this.1, by simpa using this.2⟩

/-- Helper (trace induction): from the invariant, a trace spaced under the
timeout keeps `wid` in every listing and in the final registry. -/
theorem registry_liveness_trace (wid : String) :
    ∀ (es : List RegEv) (ws : Registry) (tlast : Nat),
      regInv wid tlast ws → spacedOk wid tlast es = true →
      sweepsInclude wid ws es = true ∧ ∃ w ∈ runEvs ws es, w.id = wid := by
  intro es
  induction es with
  | nil =>
    intro ws tlast hinv _
    exact ⟨rfl, regInv_mem hinv⟩
  | cons e es ih =>
    intro ws tlast hinv hsp
    obtain ⟨w, hw, hls⟩ := hinv
    cases e with
    | reg i ip port jid t =>
      by_cases hiw : i = wid
      · subst hiw
        rw [spacedOk, if_pos rfl] at hsp
        have hinv2 : regInv i t (dictSetW ws ⟨i, ip, port, jid, t⟩) :=
          ⟨⟨i, ip, port, jid, t⟩,
           dictSetW_filter_key _ i rfl ws (by rw [hw]; simp), rfl⟩
        have := ih (dictSetW ws ⟨i, ip, port, jid, t⟩) t hinv2 hsp
        exact this
      · rw [spacedOk, if_neg hiw] at hsp
        have hinv2 : regInv wid tlast (dictSetW ws ⟨i, ip, port, jid, t⟩) :=
          ⟨w, by rw [dictSetW_filter_ne _ wid hiw ws, hw], hls⟩
        have := ih _ tlast hinv2 hsp
        exact this
    | hb i t =>
      by_cases hiw : i = wid
      · subst hiw
        rw [spacedOk, if_pos rfl, Bool.and_eq_true] at hsp
        have hhas : hasW ws i = true := by
          rw [hasW, List.any_eq_true]
          obtain ⟨w2, hm, he⟩ := regInv_mem ⟨w, hw, hls⟩
          exact ⟨w2, hm, by simpa using he⟩
        have hstep : stepEv ws (RegEv.hb i t) = hbUpdate ws i t := by
          simp [stepEv, worker_heartbeat, hhas]
        have hinv2 : regInv i t (hbUpdate ws i t) :=
          ⟨{ w with last_seen := t }, hbUpdate_filter_eq i t ws w hw, rfl⟩
        have := ih (hbUpdate ws i t) t hinv2 hsp.2
        refine ⟨?_, ?_⟩
        · show sweepsInclude i (stepEv ws (RegEv.hb i t)) es = true
          rw [hstep]
          exact this.1
        · show ∃ w ∈ runEvs (stepEv ws (RegEv.hb i t)) es, w.id = i
          rw [hstep]
          exact this.2
      · rw [spacedOk, if_neg hiw] at hsp
        have hstep2 : stepEv ws (RegEv.hb i t)
            = if hasW ws i = true then hbUpdate ws i t else ws := by
          by_cases hhas : hasW ws i = true <;>
            simp [stepEv, worker_heartbeat, hhas]
        have hinv2 : regInv wid tlast (stepEv ws (RegEv.hb i t)) := by
          refine ⟨w, ?_, hls⟩
          rw [hstep2]
          by_cases hhas : hasW ws i = true
          · rw [if_pos hhas, hbUpdate_filter_ne i wid hiw t ws, hw]
          · rw [if_neg hhas, hw]
        have := ih _ tlast hinv2 hsp
        exact this
    | sweep t =>
      rw [spacedOk, Bool.and_eq_true, decide_eq_true_eq] at hsp
      have hlive : (t - w.last_seen < worker_heartbeat_timeout) := by
        rw [hls]; exact hsp.1
      have hmem : w ∈ ws := by
        obtain ⟨w2, hm, _⟩ := regInv_mem ⟨w, hw, hls⟩
        have hmem : w ∈ ws.filter (fun x => x.id = wid) := by
          rw [hw]; exact List.mem_singleton.mpr rfl
        exact (List.mem_filter.mp hmem).1
      have hwid : w.id = wid := by
        have hmem2 : w ∈ ws.filter (fun x => x.id = wid) := by
          rw [hw]; exact List.mem_singleton.mpr rfl
        simpa using (List.mem_filter.mp hmem2).2
      have hactive : w ∈ get_active_workers ws t :=
        List.mem_filter.mpr ⟨hmem, by simpa using hlive⟩
      have hinv2 : regInv wid tlast (get_active_workers ws t) := by
        refine ⟨w, ?_, hls⟩
        rw [get_active_filter_comm, hw]
        simp [List.filter_cons, hlive]
      have := ih (get_active_workers ws t) tlast hinv2 hsp.2
      refine ⟨?_, this.2⟩
      rw [sweepsInclude, Bool.and_eq_true]
      refine ⟨?_, this.1⟩
      rw [List.any_eq_true]
      exact ⟨w, hactive, by simpa using hwid⟩

/-- Helper: once `worker_heartbeat_timeout` has elapsed since the last
heartbeat, the sweep excludes and evicts the record, and a subsequent
heartbeat fails. -/
theorem registry_eviction (wid : String) (ws : Registry) (tlast now t2 : Nat)
    (hinv : regInv wid tlast ws)
    (hstale : worker_heartbeat_timeout ≤ now - tlast) :
    (get_active_workers ws now).any (fun w => w.id = wid) = false
  ∧ lookupW (get_active_workers ws now) wid = none
  ∧ worker_heartbeat (get_active_workers ws now) wid t2
      = (get_active_workers ws now, ⟨false, some "Worker not found"⟩) := by
  obtain ⟨w, hw, hls⟩ := hinv
  have hdead : ¬ (now - w.last_seen < worker_heartbeat_timeout) := by
    rw [hls]; omega
  have hflt : (get_active_workers ws now).filter (fun x => x.id = wid) = [] := by
    rw [get_active_filter_comm, hw]
    simp [List.filter_cons, hdead]
  have hnone : ∀ x ∈ get_active_workers ws now, ¬ (x.id = wid) := by
    intro x hx hc
    have hmem : x ∈ (get_active_workers ws now).filter (fun x => x.id = wid) :=
      List.mem_filter.mpr ⟨hx, by simpa using hc⟩
    rw [hflt] at hmem
    exact absurd hmem (List.not_mem_nil x)
  have hany : (get_active_workers ws now).any (fun w => w.id = wid) = false := by
    rw [List.any_eq_false]
    intro x hx
    simpa using hnone x hx
  have hhas : hasW (get_active_workers ws now) wid = false := hany
  refine ⟨hany, ?_, ?_⟩
  · rw [lookupW, List.find?_eq_none]
    intro x hx
    simpa using hnone x hx
  · simp [worker_heartbeat, hhas]

/-- C1: for every worker id, the active listing includes the id exactly while
the time since its last recorded heartbeat is within the 60-second timeout.
First part: after a `register(id)` at time `t0` (in any registry holding at
most one record for the id), any event sequence whose heartbeats for the id
and listings are spaced strictly under the timeout keeps the id in every
listing and in the registry.  Second part: once no heartbeat has arrived
within the timeout of the last stamp, the next listing excludes the id,
leaves no record for it behind, and a subsequent `heartbeat(id)` returns the
"Worker not found" error. -/
theorem C1_heartbeat_liveness :
    (∀ (wid ip : String) (port : Nat) (jid : Option String) (t0 : Nat)
        (es : List RegEv) (ws0 : Registry),
        (ws0.filter (fun x => x.id = wid)).length ≤ 1 →
        spacedOk wid t0 es = true →
        sweepsInclude wid ws0 (RegEv.reg wid ip port jid t0 :: es) = true
          ∧ ∃ w ∈ runEvs ws0 (RegEv.reg wid ip port jid t0 :: es), w.id = wid)
  ∧ (∀ (wid : String) (ws : Registry) (tlast now t2 : Nat),
        regInv wid tlast ws → worker_heartbeat_timeout ≤ now - tlast →
        (get_active_workers ws now).any (fun w => w.id = wid) = false
      ∧ lookupW (get_active_workers ws now) wid = none
      ∧ worker_heartbeat (get_active_workers ws now) wid t2
          = (get_active_workers ws now, ⟨false, some "Worker not found"⟩)) := by
  constructor
  · intro wid ip port jid t0 es ws0 huniq hsp
    have hinv : regInv wid t0 (dictSetW ws0 ⟨wid, ip, port, jid, t0⟩) :=
      ⟨⟨wid, ip, port, jid, t0⟩, dictSetW_filter_key _ wid rfl ws0 huniq, rfl⟩
    have := registry_liveness_trace wid es _ t0 hinv hsp
    exact this
  · intro wid ws tlast now t2 hinv hstale
    exact registry_eviction wid ws tlast now t2 hinv hstale

/-- Concrete run of `C1_heartbeat_liveness`: register at 0, heartbeat at 30,
listing at 50 keeps the worker; with no heartbeat since 0, the listing at 60
evicts it and a heartbeat at 61 reports "Worker not found". -/
theorem C1_heartbeat_liveness_witness :
    (sweepsInclude "w1" []
        [RegEv.reg "w1" "10.0.0.1" 8188 none 0, RegEv.hb "w1" 30,
         RegEv.sweep 50] = true
      ∧ ∃ w ∈ runEvs []
          [RegEv.reg "w1" "10.0.0.1" 8188 none 0, RegEv.hb "w1" 30,
           RegEv.sweep 50], w.id = "w1")
  ∧ ((get_active_workers [⟨"w1", "10.0.0.1", 8188, none, 0⟩] 60).any
        (fun w => w.id = "w1") = false
      ∧ lookupW (get_active_workers [⟨"w1", "10.0.0.1", 8188, none, 0⟩] 60) "w1"
          = none
      ∧ worker_heartbeat (get_active_workers [⟨"w1", "10.0.0.1", 8188, none, 0⟩] 60)
          "w1" 61
          = (get_active_workers [⟨"w1", "10.0.0.1", 8188, none, 0⟩] 60,
             ⟨false, some "Worker not found"⟩)) :=
  ⟨C1_heartbeat_liveness.1 "w1" "10.0.0.1" 8188 none 0
      [RegEv.hb "w1" 30, RegEv.sweep 50] [] (by decide) (by decide),
   C1_heartbeat_liveness.2 "w1" [⟨"w1", "10.0.0.1", 8188, none, 0⟩] 0 60 61
      ⟨⟨"w1", "10.0.0.1", 8188, none, 0⟩, by decide, rfl⟩ (by decide)⟩

/-- Claim wording (for refutation), not the source: "a 24-character
hexadecimal identifier occurs in the stdout" — some position starts a run of
at least 24 hex characters. -/
def specContainsHex24 (cs : List Char) : Bool :=
  (List.range (cs.length + 1)).any
    (fun i => ((cs.drop i).take 24).length = 24 && ((cs.drop i).take 24).all isHexCI)

/-- Claim wording: "stdout contains no token starting with JobID=". -/
def noJobIdToken (cs : List Char) : Bool :=
  (pyTokens cs).all (fun t => !(jobIdKey.isPrefixOf t))

/-- C6 counterexample: a stdout that is nothing but a bare 24-character
hexadecimal identifier has no `JobID=` token and contains a 24-hex-character
identifier, yet `_extract_job_id` returns the no-match result `""` — the
regex fallback only fires after a `Job ID` marker, refuting the claim that
any 24-hex occurrence is extracted. -/
theorem C6_counterexample_bare_hex :
    noJobIdToken ("abcdefabcdefabcdefabcdef").data = true
  ∧ specContainsHex24 ("abcdefabcdefabcdefabcdef").data = true
  ∧ extract_job_id "abcdefabcdefabcdefabcdef" = "" :=
  ⟨by decide, by decide, by decide⟩

/-- Helper: a successful pattern match yields exactly 24 hex characters. -/
theorem matchJobIdAt_hex (cs hex : List Char) (h : matchJobIdAt cs = some hex) :
    hex.length = 24 ∧ hex.all isHexCI = true := by
  unfold matchJobIdAt at h
  cases hm : matchCI ['J', 'o', 'b', ' ', 'I', 'D'] cs with
  | none => rw [hm] at h; exact absurd h (by simp)
  | some rest =>
    rw [hm] at h
    dsimp only at h
    by_cases hs : (rest.takeWhile isSepChar).isEmpty
    · rw [if_pos hs] at h
      exact absurd h (by simp)
    · rw [if_neg hs] at h
      by_cases hc : (decide (((rest.dropWhile isSepChar).take 24).length = 24)
          && ((rest.dropWhile isSepChar).take 24).all isHexCI) = true
      · rw [if_pos hc] at h
        obtain rfl : (rest.dropWhile isSepChar).take 24 = hex := Option.some.inj h
        rw [Bool.and_eq_true, decide_eq_true_eq] at hc
        exact hc
      · rw [if_neg hc] at h
        exact absurd h (by simp)

/-- Helper: whatever `re.search` returns is a well-formed 24-hex capture. -/
theorem regexSearch_hex (cs : List Char) (hex : List Char)
    (h : regexSearch cs = some hex) :
    hex.length = 24 ∧ hex.all isHexCI = true := by
  induction cs with
  | nil => simp [regexSearch] at h
  | cons c cs ih =>
    rw [regexSearch] at h
    cases hm : matchJobIdAt (c :: cs) with
    | some hx =>
      rw [hm] at h
      dsimp only at h
      obtain rfl : hx = hex := Option.some.inj h
      exact matchJobIdAt_hex _ _ hm
    | none =>
      rw [hm] at h
      dsimp only at h
      exact ih h

/-- C6 (amended): when no whitespace token of the stdout starts with
`JobID=`, the extraction falls back to the regex search for a case-insensitive
`Job ID` marker followed by separator characters and 24 hex characters;
whenever that search succeeds, extraction returns exactly those 24
hexadecimal characters rather than the no-match result. -/
theorem C6_regex_fallback (stdout : String)
    (hTok : (pyTokens stdout.data).all (fun t => !(jobIdKey.isPrefixOf t)) = true)
    (hex : List Char) (hRe : regexSearch stdout.data = some hex) :
    extract_job_id stdout = String.mk hex
  ∧ hex.length = 24 ∧ hex.all isHexCI = true := by
  have hfind := find_jobIdKey_eq_none stdout hTok
  have hwf := regexSearch_hex stdout.data hex hRe
  refine ⟨?_, hwf.1, hwf.2⟩
  unfold extract_job_id extractJobIdChars
  rw [hfind, hRe]

/-- Concrete run of `C6_regex_fallback`: stdout `"Job ID: <24 hex chars>"`
has no `JobID=` token, the regex fallback fires, and extraction returns the
identifier. -/
theorem C6_regex_fallback_witness :
    ((pyTokens ("Job ID: 0123456789abcdef01234567").data).all
        (fun t => !(jobIdKey.isPrefixOf t)) = true)
  ∧ (regexSearch ("Job ID: 0123456789abcdef01234567").data
        = some ("0123456789abcdef01234567").data)
  ∧ extract_job_id "Job ID: 0123456789abcdef01234567" = "0123456789abcdef01234567" :=
  ⟨by decide, by decide,
   (C6_regex_fallback "Job ID: 0123456789abcdef01234567" (by decide)
      ("0123456789abcdef01234567").data (by decide)).1⟩
